import Mathlib

/-!
# Verification of the Invaders game core

A shallow embedding of the Space Invaders game (files `Invaders.py`,
`scenes.py`, `sprites.py`, `widgets.py`) and proofs about its behaviour.

Modelling conventions:
* Python integers become `Int`; machine wrap-around does not occur in this
  program.
* `pygame.Rect` becomes a record of top-left corner and size; derived
  accessors (`top`, `bottom`, `midtop`, `center`) follow pygame semantics.
* Mutation of objects becomes explicit state passing; `pygame.event.post`
  becomes an explicit list of emitted events returned by each operation.
* Code that can raise (attribute access on `None`, invalid direction
  strings) returns `Except String _`.
* Sound side effects (`sound.play()`) are recorded as an append-only list of
  sound names.
* The window size is fixed at 800 × 600 (`Game(size=(800, 600))`).
-/

namespace Invaders

/-- Events posted to the pygame event queue (module `constants`). -/
inductive GameEvent
  | spawn_enemy
  | enemy_breach
  | player_dead
deriving DecidableEq

/-- `pygame.display.get_window_size()` width: the game window is 800 wide. -/
def screen_width_const : Int := 800

/-- `pygame.display.get_window_size()` height: the game window is 600 tall. -/
def screen_height_const : Int := 600

/-- `pygame.Rect`: top-left corner `(x, y)` and size `(w, h)`. -/
structure Rect where
  x : Int
  y : Int
  w : Int
  h : Int
deriving DecidableEq

def Rect.top (r : Rect) : Int := r.y

def Rect.bottom (r : Rect) : Int := r.y + r.h

def Rect.left (r : Rect) : Int := r.x

def Rect.right (r : Rect) : Int := r.x + r.w

/-- `rect.midtop`: the middle of the top edge. -/
def Rect.midtop (r : Rect) : Int × Int := (r.x + r.w / 2, r.y)

/-- `rect.center`. -/
def Rect.center (r : Rect) : Int × Int := (r.x + r.w / 2, r.y + r.h / 2)

/-- Assignment `rect.center = pos`: pygame recomputes the top-left corner
from the requested center (integer halving of the size). -/
def Rect.setCenter (r : Rect) (pos : Int × Int) : Rect :=
  { r with x := pos.1 - r.w / 2, y := pos.2 - r.h / 2 }

/-- An image resource (`resources.Image`): surface size plus the collision
mask, the set of opaque pixel offsets relative to the image's top-left. -/
structure Image where
  w : Int
  h : Int
  mask : List (Int × Int)
deriving DecidableEq

/-- `Sprite.__init__`: `rect = img.img.get_rect()` followed by
`rect.center = pos`. -/
def spriteRect (img : Image) (pos : Int × Int) : Rect :=
  Rect.setCenter { x := 0, y := 0, w := img.w, h := img.h } pos

/-- The per-difficulty parameter bundle built by `MainScene.setup_params`
(`params` dict keys). -/
structure Params where
  player_lives : Int
  player_velocity : Int
  player_cooldown : Int
  player_energy : Int
  spawn_timer_min : Int
  spawn_timer_max : Int
  enemy_velocity : Int
  projectile_velocity : Int
  shoot_cost : Int
deriving DecidableEq

/-- `MainScene.setup_params`: the three presets selected by difficulty.
For any other difficulty the dict stays empty (`none` here). -/
def setup_params (difficulty : Int) : Option Params :=
  if difficulty = 0 then
    some { player_lives := 5, player_velocity := 5, player_cooldown := 100,
           player_energy := 600,
           spawn_timer_min := 1500, spawn_timer_max := 2000,
           enemy_velocity := 1,
           projectile_velocity := 5, shoot_cost := 30 }
  else if difficulty = 1 then
    some { player_lives := 3, player_velocity := 5, player_cooldown := 100,
           player_energy := 550,
           spawn_timer_min := 1300, spawn_timer_max := 1800,
           enemy_velocity := 1,
           projectile_velocity := 5, shoot_cost := 35 }
  else if difficulty = 2 then
    some { player_lives := 1, player_velocity := 5, player_cooldown := 100,
           player_energy := 400,
           spawn_timer_min := 1200, spawn_timer_max := 1600,
           enemy_velocity := 2,
           projectile_velocity := 5, shoot_cost := 40 }
  else
    none

/-- `sprites.Player`: ship position, screen bounds, velocity and the
shooting economy (`cooldown`, `max_energy`, `energy`). -/
structure Player where
  rect : Rect
  mask : List (Int × Int)
  screen_width : Int
  screen_height : Int
  velocity : Int
  cooldown : Int
  max_energy : Int
  energy : Int
deriving DecidableEq

/-- `Player.__init__`. -/
def Player.init (img : Image) (pos : Int × Int) (params : Params) : Player :=
  { rect := spriteRect img pos
    mask := img.mask
    screen_width := screen_width_const
    screen_height := screen_height_const
    velocity := params.player_velocity
    cooldown := params.player_cooldown
    max_energy := params.player_energy
    energy := params.player_energy }

/-- `Player.update`: regenerate one unit of energy, capped at the maximum. -/
def Player.update (p : Player) : Player :=
  { p with energy := min p.max_energy (p.energy + 1) }

/-- `Player.move`: shift by `velocity` along one axis, guarded so that the
bounding rectangle stays strictly clear of the screen edges; an invalid
direction string raises `KeyError`. -/
def Player.move (p : Player) (direction : String) : Except String Player :=
  if direction ∉ (["up", "down", "left", "right"] : List String) then
    .error "Invalid direction."
  else if direction = "up" ∧ p.rect.top > p.velocity then
    .ok { p with rect := { p.rect with y := p.rect.y - p.velocity } }
  else if direction = "down" ∧ p.rect.bottom < p.screen_height - p.velocity then
    .ok { p with rect := { p.rect with y := p.rect.y + p.velocity } }
  else if direction = "left" ∧ p.rect.left > p.velocity then
    .ok { p with rect := { p.rect with x := p.rect.x - p.velocity } }
  else if direction = "right" ∧ p.rect.right < p.screen_width - p.velocity then
    .ok { p with rect := { p.rect with x := p.rect.x + p.velocity } }
  else
    .ok p

/-- `sprites.Projectile`. -/
structure Projectile where
  rect : Rect
  mask : List (Int × Int)
  velocity : Int
deriving DecidableEq

/-- `Projectile.__init__`. -/
def Projectile.init (img : Image) (pos : Int × Int) (params : Params) : Projectile :=
  { rect := spriteRect img pos
    mask := img.mask
    velocity := params.projectile_velocity }

/-- `Projectile.update`: move up by `velocity`; `kill()` (here: `none`)
once `rect.y` no longer exceeds `velocity`. -/
def Projectile.update (p : Projectile) : Option Projectile :=
  if p.rect.y > p.velocity then
    some { p with rect := { p.rect with y := p.rect.y - p.velocity } }
  else
    none

/-- `sprites.Enemy`. -/
structure Enemy where
  rect : Rect
  mask : List (Int × Int)
  velocity : Int
  screen_width : Int
  screen_height : Int
deriving DecidableEq

/-- `Enemy.__init__`: center the rect on `pos`, then clamp it inside the
horizontal screen bounds. -/
def Enemy.init (img : Image) (pos : Int × Int) (params : Params) : Enemy :=
  let r := spriteRect img pos
  let r := if r.left < 0 then { r with x := 0 } else r
  let r := if r.right > screen_width_const then
             { r with x := screen_width_const - r.w } else r
  { rect := r
    mask := img.mask
    velocity := params.enemy_velocity
    screen_width := screen_width_const
    screen_height := screen_height_const }

/-- `Enemy.update`: move down by `velocity` while the bottom edge is above
the bottom of the screen; otherwise `kill()` and post one
`EVENT_ENEMY_BREACH`. -/
def Enemy.update (e : Enemy) : Option Enemy × List GameEvent :=
  if e.rect.bottom < e.screen_height then
    (some { e with rect := { e.rect with y := e.rect.y + e.velocity } }, [])
  else
    (none, [GameEvent.enemy_breach])

/-- `sprites.Explosion`: remembers its creation time. -/
structure Explosion where
  rect : Rect
  mask : List (Int × Int)
  start_time : Int
deriving DecidableEq

/-- `Explosion.__init__` (`now` stands for `pygame.time.get_ticks()`). -/
def Explosion.init (img : Image) (pos : Int × Int) (now : Int) : Explosion :=
  { rect := spriteRect img pos
    mask := img.mask
    start_time := now }

/-- `Explosion.update`: self-destroys after 100 ms of wall-clock time. -/
def Explosion.update (e : Explosion) (now : Int) : Option Explosion :=
  if now - e.start_time > 100 then none else some e

/-- `pygame.sprite.collide_mask`: the two masks overlap at the sprites'
current relative offset, i.e. some opaque pixel of `a` and some opaque
pixel of `b` land on the same absolute screen position. -/
def collide_mask (amask : List (Int × Int)) (arect : Rect)
    (bmask : List (Int × Int)) (brect : Rect) : Bool :=
  amask.any fun p =>
    bmask.any fun q =>
      (q.1 == p.1 + arect.x - brect.x) && (q.2 == p.2 + arect.y - brect.y)

/-- Mask collision between a projectile and an enemy. -/
def collideProjEnemy (p : Projectile) (e : Enemy) : Bool :=
  collide_mask p.mask p.rect e.mask e.rect

/-- Mask collision between the player and an enemy. -/
def collidePlayerEnemy (pl : Player) (e : Enemy) : Bool :=
  collide_mask pl.mask pl.rect e.mask e.rect

/-- `pygame.sprite.groupcollide(projectiles, enemies, True, True, collide_mask)`:
iterate over the projectiles in order; every enemy still alive that collides
with the current projectile is killed (and recorded in the dict entry for
that projectile), and a projectile with a non-empty entry is killed itself.
Returns (dict as an association list, surviving projectiles, surviving
enemies). -/
def groupcollide (collided : Projectile → Enemy → Bool) :
    List Projectile → List Enemy →
    List (Projectile × List Enemy) × List Projectile × List Enemy
  | [], enemies => ([], [], enemies)
  | p :: ps, enemies =>
    let hit := enemies.filter fun e => collided p e
    let remaining := enemies.filter fun e => ! collided p e
    if hit.isEmpty then
      let res := groupcollide collided ps enemies
      (res.1, p :: res.2.1, res.2.2)
    else
      let res := groupcollide collided ps remaining
      ((p, hit) :: res.1, res.2.1, res.2.2)

/-- `sprites.SpriteManager`: the sprite pools, the shared `params` dict and
the recorded sound side effects. -/
structure SpriteManagerState where
  params : Params
  player_group : Option Player
  enemies : List Enemy
  projectiles : List Projectile
  explosions : List Explosion
  sounds_played : List String
deriving DecidableEq

/-- `SpriteManager.create_player`. -/
def SpriteManagerState.create_player (s : SpriteManagerState) (img : Image) :
    Player × SpriteManagerState :=
  let player := Player.init img
    (screen_width_const / 2, screen_height_const - 30) s.params
  (player, { s with player_group := some player })

/-- `SpriteManager.create_enemy` (the random horizontal position is passed
in explicitly). -/
def SpriteManagerState.create_enemy (s : SpriteManagerState) (img : Image)
    (xpos : Int) : Enemy × SpriteManagerState :=
  let enemy := Enemy.init img (xpos, 0) s.params
  (enemy, { s with enemies := s.enemies ++ [enemy] })

/-- `SpriteManager.create_projectile`: spawns at
`self.player_group.sprite.rect.midtop` and plays the `shot` sound.
When the player slot is empty, `player_group.sprite` is `None` and the
attribute access `.rect` raises `AttributeError`. -/
def SpriteManagerState.create_projectile (s : SpriteManagerState) (img : Image) :
    Except String (Projectile × SpriteManagerState) :=
  match s.player_group with
  | none => .error "AttributeError: NoneType object has no attribute rect"
  | some player =>
    let projectile := Projectile.init img player.rect.midtop s.params
    .ok (projectile,
      { s with projectiles := s.projectiles ++ [projectile]
               sounds_played := s.sounds_played ++ ["shot"] })

/-- `SpriteManager.create_explosion`: an explosion at the ship's center plus
the `explosion` sound. -/
def SpriteManagerState.create_explosion (s : SpriteManagerState) (img : Image)
    (shipCenter : Int × Int) (now : Int) : SpriteManagerState :=
  { s with explosions := s.explosions ++ [Explosion.init img shipCenter now]
           sounds_played := s.sounds_played ++ ["explosion"] }

/-- `SpriteManager.handle_player_collisions`:
`groupcollide(player_group, enemies, False, True, collide_mask)`; on any
hit, one explosion at the player plus one per destroyed enemy; returns
`(player_damage, score)`, both the number of destroyed enemies. -/
def SpriteManagerState.handle_player_collisions (s : SpriteManagerState)
    (explosionImg : Image) (now : Int) : SpriteManagerState × Int × Int :=
  match s.player_group with
  | none => (s, 0, 0)
  | some player =>
    let hit := s.enemies.filter fun e => collidePlayerEnemy player e
    let remaining := s.enemies.filter fun e => ! collidePlayerEnemy player e
    if hit.isEmpty then
      (s, 0, 0)
    else
      let s := { s with enemies := remaining }
      let s := s.create_explosion explosionImg player.rect.center now
      let s := hit.foldl
        (fun acc e => acc.create_explosion explosionImg e.rect.center now) s
      (s, (hit.length : Int), (hit.length : Int))

/-- `SpriteManager.handle_projectiles_collisions`:
`groupcollide(projectiles, enemies, True, True, collide_mask)`; one
explosion and one score point per destroyed enemy. -/
def SpriteManagerState.handle_projectiles_collisions (s : SpriteManagerState)
    (explosionImg : Image) (now : Int) : SpriteManagerState × Int :=
  let res := groupcollide collideProjEnemy s.projectiles s.enemies
  let destroyed := (res.1.map Prod.snd).flatten
  let s := { s with projectiles := res.2.1, enemies := res.2.2 }
  let s := destroyed.foldl
    (fun acc e => acc.create_explosion explosionImg e.rect.center now) s
  (s, (destroyed.length : Int))

/-- `SpriteManager.update` = `Group.update()` over every pool: the player
regenerates, projectiles fly up (dying at the top), enemies fly down
(breaching at the bottom), explosions time out.  Returns the posted
events. -/
def SpriteManagerState.update (s : SpriteManagerState) (now : Int) :
    SpriteManagerState × List GameEvent :=
  let enemyStepped := s.enemies.map Enemy.update
  ({ s with
      player_group := s.player_group.map Player.update
      projectiles := s.projectiles.filterMap Projectile.update
      enemies := enemyStepped.filterMap Prod.fst
      explosions := s.explosions.filterMap fun e => Explosion.update e now },
   (enemyStepped.map Prod.snd).flatten)

/-- The image resources the Play scene uses (`ResourceManager.images`). -/
structure Resources where
  player : Image
  enemy : Image
  projectile : Image
  explosion : Image
deriving DecidableEq

/-- `scenes.MainScene`: the Play scene.  `self.params` and
`self.sprites.params` are the same dict object in the source, so the bundle
is stored once, inside `sprites`; `self.player` is the object held in the
registry's player slot (`create_player` puts the very same object there and
nothing in the Play scene removes it). -/
structure MainScene where
  score : Int
  last_shot_time : Int
  sprites : SpriteManagerState
deriving DecidableEq

/-- `self.params` of the Play scene (the dict shared with the sprite
manager). -/
def MainScene.params (sc : MainScene) : Params := sc.sprites.params

/-- `MainScene.__init__`: select the preset for the difficulty, create the
player, start the soundtrack.  Difficulties outside {0, 1, 2} leave the
params dict empty, modelled as `none`. -/
def MainScene.init (resources : Resources) (difficulty : Int) : Option MainScene :=
  (setup_params difficulty).map fun params =>
    let s0 : SpriteManagerState :=
      { params := params, player_group := none, enemies := [],
        projectiles := [], explosions := [], sounds_played := [] }
    let res := s0.create_player resources.player
    { score := 0
      last_shot_time := 0
      sprites := { res.2 with sounds_played := res.2.sounds_played ++ ["ost"] } }

/-- `MainScene.shoot` (`current_time` stands for `pygame.time.get_ticks()`):
gate on the cooldown (strictly more than `player_cooldown` ms since the
last shot) and on the energy (at least `shoot_cost`); on success create a
projectile, record the shot time and deduct the energy cost from
`self.player`, the object in the registry's player slot. -/
def MainScene.shoot (sc : MainScene) (projImg : Image) (current_time : Int) :
    Except String MainScene :=
  match sc.sprites.player_group with
  | none => .error "AttributeError: NoneType object has no attribute energy"
  | some player =>
    if (current_time - sc.last_shot_time > sc.params.player_cooldown)
        ∧ (player.energy ≥ sc.params.shoot_cost) then
      match sc.sprites.create_projectile projImg with
      | .error e => .error e
      | .ok res =>
        .ok { sc with
          last_shot_time := current_time
          sprites := { res.2 with
            player_group := some
              { player with energy := player.energy - sc.params.shoot_cost } } }
    else
      .ok sc

/-- `MainScene.damage_player`: subtract `amount` from
`self.params['player_lives']` (mutating the shared dict); once lives are
`≤ 0`, spawn an explosion at `self.player` and post `EVENT_PLAYER_DEAD`.
`self.player` is the object in the registry's player slot. -/
def MainScene.damage_player (sc : MainScene) (explosionImg : Image)
    (amount : Int) (now : Int) : Except String (MainScene × List GameEvent) :=
  let params := { sc.params with player_lives := sc.params.player_lives - amount }
  let sc := { sc with sprites := { sc.sprites with params := params } }
  if params.player_lives ≤ 0 then
    match sc.sprites.player_group with
    | none => .error "AttributeError: NoneType object has no attribute rect"
    | some player =>
      .ok ({ sc with
              sprites := sc.sprites.create_explosion explosionImg
                player.rect.center now },
           [GameEvent.player_dead])
  else
    .ok (sc, [])

/-- `MainScene.handle_enemy_breach`: one point of damage; if lives remain
positive, play the warning sound. -/
def MainScene.handle_enemy_breach (sc : MainScene) (explosionImg : Image)
    (now : Int) : Except String (MainScene × List GameEvent) :=
  match sc.damage_player explosionImg 1 now with
  | .error e => .error e
  | .ok res =>
    if res.1.params.player_lives > 0 then
      .ok ({ res.1 with
              sprites := { res.1.sprites with
                sounds_played := res.1.sprites.sounds_played ++ ["warning"] } },
           res.2)
    else
      .ok res

/-- `MainScene.handle_collisions`: resolve player/enemy and
projectile/enemy collisions, add the combined score, apply the damage. -/
def MainScene.handle_collisions (sc : MainScene) (explosionImg : Image)
    (now : Int) : Except String (MainScene × List GameEvent) :=
  let resPl := sc.sprites.handle_player_collisions explosionImg now
  let resPr := resPl.1.handle_projectiles_collisions explosionImg now
  let sc := { sc with sprites := resPr.1
                      score := sc.score + (resPl.2.2 + resPr.2) }
  sc.damage_player explosionImg resPl.2.1 now

/-- `FinalScene.change_enemies_velocity`: force every existing enemy and
the shared `params['enemy_velocity']` to the given velocity. -/
def FinalScene.change_enemies_velocity (s : SpriteManagerState)
    (velocity : Int) : SpriteManagerState :=
  { s with enemies := s.enemies.map fun e => { e with velocity := velocity }
           params := { s.params with enemy_velocity := velocity } }

/-- `widgets.Menu` colors. -/
def MENU_ITEM_COLOR : String := "white"

/-- Color of the selected menu item. -/
def SELECTED_MENU_ITEM_COLOR : String := "yellow"

/-- `widgets.Menu`: the selection index and the colors of the three menu
items (all the other text attributes are static presentation). -/
structure Menu where
  index : Int
  item_colors : List String
deriving DecidableEq

/-- `Menu.__init__` + `create_text_objects`: three white items, then the
item at `start_index` is re-colored as selected. -/
def Menu.init (start_index : Int) : Menu :=
  { index := start_index
    item_colors := (List.replicate 3 MENU_ITEM_COLOR).set
      start_index.toNat SELECTED_MENU_ITEM_COLOR }

/-- `Menu.switch`: move the selection one step left (`direction = -1`) or
right (`direction = 1`), clamped to `[0, 2]`; re-color the newly selected
and the previously selected items; return the (new) index. -/
def Menu.switch (m : Menu) (direction : Int) : Menu × Int :=
  if direction = -1 ∧ m.index > 0 then
    let index := m.index - 1
    ({ index := index
       item_colors := ((m.item_colors.set index.toNat
           SELECTED_MENU_ITEM_COLOR).set (index + 1).toNat MENU_ITEM_COLOR) },
     index)
  else if direction = 1 ∧ m.index < 2 then
    let index := m.index + 1
    ({ index := index
       item_colors := ((m.item_colors.set index.toNat
           SELECTED_MENU_ITEM_COLOR).set (index - 1).toNat MENU_ITEM_COLOR) },
     index)
  else
    (m, m.index)

/-- `scenes.MenuScene`: the scene-level index, the menu widget and the
sounds played (a beep per valid keypress). -/
structure MenuScene where
  index : Int
  menu : Menu
  sounds_played : List String
deriving DecidableEq

/-- `MenuScene.__init__`: default selection is index 1. -/
def MenuScene.init : MenuScene :=
  { index := 1, menu := Menu.init 1, sounds_played := [] }

/-- The navigation keys of the menu relevant here (`K_LEFT` / `K_RIGHT`);
the confirm keys leave the index unchanged and switch the scene. -/
inductive MenuKey
  | left
  | right
deriving DecidableEq

/-- `MenuScene.handle_keypress` restricted to the navigation keys: play a
beep and move the selection. -/
def MenuScene.press (sc : MenuScene) (key : MenuKey) : MenuScene :=
  match key with
  | .left =>
    let res := sc.menu.switch (-1)
    { index := res.2, menu := res.1
      sounds_played := sc.sounds_played ++ ["beep"] }
  | .right =>
    let res := sc.menu.switch 1
    { index := res.2, menu := res.1
      sounds_played := sc.sounds_played ++ ["beep"] }

/-- A sequence of navigation keypresses applied to the menu scene. -/
def MenuScene.pressAll (sc : MenuScene) (keys : List MenuKey) : MenuScene :=
  keys.foldl MenuScene.press sc

/-! ## Concrete fixtures used by counterexamples and witnesses -/

/-- The easy preset (`difficulty = 0`). -/
def paramsEasy : Params :=
  { player_lives := 5, player_velocity := 5, player_cooldown := 100,
    player_energy := 600,
    spawn_timer_min := 1500, spawn_timer_max := 2000,
    enemy_velocity := 1,
    projectile_velocity := 5, shoot_cost := 30 }

/-- The normal preset (`difficulty = 1`). -/
def paramsNormal : Params :=
  { player_lives := 3, player_velocity := 5, player_cooldown := 100,
    player_energy := 550,
    spawn_timer_min := 1300, spawn_timer_max := 1800,
    enemy_velocity := 1,
    projectile_velocity := 5, shoot_cost := 35 }

/-- The hard preset (`difficulty = 2`). -/
def paramsHard : Params :=
  { player_lives := 1, player_velocity := 5, player_cooldown := 100,
    player_energy := 400,
    spawn_timer_min := 1200, spawn_timer_max := 1600,
    enemy_velocity := 2,
    projectile_velocity := 5, shoot_cost := 40 }

/-- A tiny 2×2 image with one opaque pixel. -/
def img0 : Image := { w := 2, h := 2, mask := [(0, 0)] }

/-- A resource set built from `img0`. -/
def resources0 : Resources :=
  { player := img0, enemy := img0, projectile := img0, explosion := img0 }

/-- The player created by `MainScene.__init__` at difficulty 0 with
`resources0`. -/
def player0 : Player :=
  { rect := { x := 399, y := 569, w := 2, h := 2 }
    mask := [(0, 0)]
    screen_width := 800, screen_height := 600
    velocity := 5, cooldown := 100
    max_energy := 600, energy := 600 }

/-- The Play scene created at difficulty 0 with `resources0`. -/
def scene0 : MainScene :=
  { score := 0
    last_shot_time := 0
    sprites := { params := paramsEasy, player_group := some player0,
                 enemies := [], projectiles := [], explosions := [],
                 sounds_played := ["ost"] } }

/-- `scene0` after one point of damage (lives 5 → 4, no death). -/
def sceneDamaged : MainScene :=
  { score := 0
    last_shot_time := 0
    sprites := { params := { paramsEasy with player_lives := 4 },
                 player_group := some player0,
                 enemies := [], projectiles := [], explosions := [],
                 sounds_played := ["ost"] } }

/-- A registry whose player slot is empty. -/
def smNoPlayer : SpriteManagerState :=
  { params := paramsEasy, player_group := none, enemies := [],
    projectiles := [], explosions := [], sounds_played := [] }

/-- A wide projectile whose mask has opaque pixels at offsets (0,0) and
(10,0). -/
def projWide : Projectile :=
  { rect := { x := 0, y := 0, w := 12, h := 1 }
    mask := [(0, 0), (10, 0)]
    velocity := 5 }

/-- An enemy whose single opaque pixel sits at absolute position (0, 0). -/
def enemyA : Enemy :=
  { rect := { x := 0, y := 0, w := 2, h := 2 }, mask := [(0, 0)]
    velocity := 1, screen_width := 800, screen_height := 600 }

/-- An enemy whose single opaque pixel sits at absolute position (10, 0). -/
def enemyB : Enemy :=
  { rect := { x := 10, y := 0, w := 2, h := 2 }, mask := [(0, 0)]
    velocity := 1, screen_width := 800, screen_height := 600 }

/-- A registry where the one projectile mask-intersects both enemies. -/
def smDoubleHit : SpriteManagerState :=
  { params := paramsEasy, player_group := some player0,
    enemies := [enemyA, enemyB], projectiles := [projWide],
    explosions := [], sounds_played := [] }

/-! ## Frame lemmas about `params` -/

/-- Equality of every `params` field except `player_lives`. -/
def Params.sameExceptLives (p q : Params) : Prop :=
  p.player_velocity = q.player_velocity ∧
  p.player_cooldown = q.player_cooldown ∧
  p.player_energy = q.player_energy ∧
  p.spawn_timer_min = q.spawn_timer_min ∧
  p.spawn_timer_max = q.spawn_timer_max ∧
  p.enemy_velocity = q.enemy_velocity ∧
  p.projectile_velocity = q.projectile_velocity ∧
  p.shoot_cost = q.shoot_cost

instance (p q : Params) : Decidable (Params.sameExceptLives p q) := by
  unfold Params.sameExceptLives
  infer_instance

lemma sameExceptLives_refl (p : Params) : Params.sameExceptLives p p :=
  ⟨rfl, rfl, rfl, rfl, rfl, rfl, rfl, rfl⟩

lemma create_explosion_params (s : SpriteManagerState) (img : Image)
    (c : Int × Int) (now : Int) :
    (s.create_explosion img c now).params = s.params := rfl

lemma foldl_create_explosion_params (l : List Enemy) (s : SpriteManagerState)
    (img : Image) (now : Int) :
    (l.foldl (fun acc e => acc.create_explosion img e.rect.center now) s).params
      = s.params := by
  induction l generalizing s with
  | nil => rfl
  | cons e l ih => rw [List.foldl_cons, ih]; rfl

lemma create_projectile_params (s : SpriteManagerState) (img : Image)
    (res : Projectile × SpriteManagerState)
    (h : s.create_projectile img = .ok res) : res.2.params = s.params := by
  unfold SpriteManagerState.create_projectile at h
  cases hpg : s.player_group with
  | none => rw [hpg] at h; exact absurd h (by simp)
  | some player =>
    rw [hpg] at h
    simp only [Except.ok.injEq] at h
    rw [← h]

lemma handle_player_collisions_params (s : SpriteManagerState) (img : Image)
    (now : Int) : (s.handle_player_collisions img now).1.params = s.params := by
  unfold SpriteManagerState.handle_player_collisions
  cases s.player_group with
  | none => rfl
  | some player =>
    dsimp only
    split
    · rfl
    · rw [foldl_create_explosion_params]; rfl

lemma handle_projectiles_collisions_params (s : SpriteManagerState)
    (img : Image) (now : Int) :
    (s.handle_projectiles_collisions img now).1.params = s.params := by
  unfold SpriteManagerState.handle_projectiles_collisions
  dsimp only
  rw [foldl_create_explosion_params]

lemma damage_player_params (sc : MainScene) (img : Image) (amount now : Int)
    (res : MainScene × List GameEvent)
    (h : sc.damage_player img amount now = .ok res) :
    res.1.params =
      { sc.params with player_lives := sc.params.player_lives - amount } := by
  unfold MainScene.damage_player at h
  dsimp only at h
  split at h
  · cases hpg : sc.sprites.player_group with
    | none => rw [hpg] at h; exact absurd h (by simp)
    | some player =>
      rw [hpg] at h
      simp only [Except.ok.injEq] at h
      rw [← h]
      rfl
  · simp only [Except.ok.injEq] at h
    rw [← h]
    rfl

lemma shoot_params (sc : MainScene) (img : Image) (t : Int) (sc' : MainScene)
    (h : sc.shoot img t = .ok sc') : sc'.sprites.params = sc.sprites.params := by
  unfold MainScene.shoot at h
  split at h
  · exact absurd h (by simp)
  · split at h
    · split at h
      · exact absurd h (by simp)
      · rename_i res hres
        simp only [Except.ok.injEq] at h
        rw [← h]
        exact create_projectile_params sc.sprites img res hres
    · simp only [Except.ok.injEq] at h
      rw [← h]

lemma update_params (s : SpriteManagerState) (now : Int) :
    ((s.update now).1).params = s.params := rfl

lemma damage_player_sameExceptLives (sc : MainScene) (img : Image)
    (amount now : Int) (res : MainScene × List GameEvent)
    (h : sc.damage_player img amount now = .ok res) :
    Params.sameExceptLives sc.params res.1.params
      ∧ res.1.params.player_lives = sc.params.player_lives - amount := by
  rw [damage_player_params sc img amount now res h]
  exact ⟨⟨rfl, rfl, rfl, rfl, rfl, rfl, rfl, rfl⟩, rfl⟩

lemma handle_collisions_params (sc : MainScene) (img : Image) (now : Int)
    (res : MainScene × List GameEvent)
    (h : sc.handle_collisions img now = .ok res) :
    Params.sameExceptLives sc.params res.1.params := by
  unfold MainScene.handle_collisions at h
  have hd := damage_player_sameExceptLives _ _ _ _ _ h
  have hmid :
      ((sc.sprites.handle_player_collisions img now).1.handle_projectiles_collisions
          img now).1.params = sc.sprites.params := by
    rw [handle_projectiles_collisions_params, handle_player_collisions_params]
  have := hd.1
  unfold MainScene.params at *
  dsimp only at this
  rw [hmid] at this
  exact this

/-- C1 — counterexample: the Play scene created at difficulty 0 starts with
`player_lives = 5`, but the breach/collision path (`damage_player`) mutates
the shared `params` dict: after one point of damage the bundle's
`player_lives` field reads 4, so the params bundle is not immutable during
Play. -/
theorem damage_mutates_params_cex :
    MainScene.init resources0 0 = some scene0
    ∧ scene0.params.player_lives = 5
    ∧ (scene0.damage_player img0 1 0).map (fun r => r.1.params.player_lives)
        = .ok 4 :=
  ⟨rfl, rfl, rfl⟩

/-- C1 (amended): for every difficulty in {0,1,2} the params bundle is
fully determined by the difficulty at Play-scene creation, and afterwards
every field except `player_lives` is never mutated (`enemy_velocity`
additionally being overridden in the Lose scene): shooting and the per-tick
sprite update leave the whole bundle unchanged, while collision/breach
handling (`damage_player`) mutates exactly the `player_lives` field,
decrementing it by the damage dealt. -/
theorem params_frame_amended :
    (setup_params 0 = some paramsEasy ∧ setup_params 1 = some paramsNormal
      ∧ setup_params 2 = some paramsHard)
    ∧ (∀ (resources : Resources) (d : Int) (sc : MainScene),
        MainScene.init resources d = some sc → setup_params d = some sc.params)
    ∧ (∀ (sc : MainScene) (img : Image) (t : Int) (sc' : MainScene),
        sc.shoot img t = .ok sc' → sc'.params = sc.params)
    ∧ (∀ (s : SpriteManagerState) (now : Int), ((s.update now).1).params = s.params)
    ∧ (∀ (sc : MainScene) (img : Image) (amount now : Int)
        (res : MainScene × List GameEvent),
        sc.damage_player img amount now = .ok res →
        Params.sameExceptLives sc.params res.1.params
          ∧ res.1.params.player_lives = sc.params.player_lives - amount)
    ∧ (∀ (sc : MainScene) (img : Image) (now : Int)
        (res : MainScene × List GameEvent),
        sc.handle_collisions img now = .ok res →
        Params.sameExceptLives sc.params res.1.params)
    ∧ (∀ (s : SpriteManagerState) (v : Int),
        (FinalScene.change_enemies_velocity s v).params
          = { s.params with enemy_velocity := v }) := by
  refine ⟨⟨rfl, rfl, rfl⟩, ?_, ?_, fun s now => rfl, ?_, ?_, fun s v => rfl⟩
  · intro resources d sc h
    unfold MainScene.init at h
    cases hsp : setup_params d with
    | none => rw [hsp] at h; exact absurd h (by simp)
    | some p =>
      rw [hsp] at h
      dsimp only [Option.map] at h
      injection h with h
      rw [← h]
      rfl
  · intro sc img t sc' h
    exact shoot_params sc img t sc' h
  · intro sc img amount now res h
    exact damage_player_sameExceptLives sc img amount now res h
  · intro sc img now res h
    exact handle_collisions_params sc img now res h

/-- Closed instantiation of `params_frame_amended`: the concrete scene at
difficulty 0 loses exactly the `player_lives` field after damage, keeps
all other fields, and its bundle is the one `setup_params` determines. -/
theorem params_frame_amended_witness :
    setup_params 0 = some scene0.params
    ∧ Params.sameExceptLives scene0.params sceneDamaged.params
    ∧ sceneDamaged.params.player_lives = scene0.params.player_lives - 1 := by
  have h := params_frame_amended
  refine ⟨h.2.1 resources0 0 scene0 rfl, ?_, ?_⟩
  · exact (h.2.2.2.2.1 scene0 img0 1 0 (sceneDamaged, []) rfl).1
  · exact (h.2.2.2.2.1 scene0 img0 1 0 (sceneDamaged, []) rfl).2

lemma length_filter_partition (p : α → Bool) (l : List α) :
    (l.filter p).length + (l.filter fun a => ! p a).length = l.length := by
  induction l with
  | nil => rfl
  | cons a l ih =>
    by_cases h : p a <;> simp [List.filter_cons, h] <;> omega

lemma groupcollide_enemy_count (c : Projectile → Enemy → Bool)
    (ps : List Projectile) (es : List Enemy) :
    (groupcollide c ps es).2.2.length
      + (((groupcollide c ps es).1.map Prod.snd).flatten).length = es.length := by
  induction ps generalizing es with
  | nil => simp [groupcollide]
  | cons p ps ih =>
    unfold groupcollide
    dsimp only
    split
    · simpa using ih es
    · have hpart := length_filter_partition (fun e => c p e) es
      have hrec := ih (es.filter fun e => ! c p e)
      simp only [List.map_cons, List.flatten_cons, List.length_append]
      omega

lemma foldl_create_explosion_enemies (l : List Enemy) (s : SpriteManagerState)
    (img : Image) (now : Int) :
    (l.foldl (fun acc e => acc.create_explosion img e.rect.center now) s).enemies
      = s.enemies := by
  induction l generalizing s with
  | nil => rfl
  | cons e l ih => rw [List.foldl_cons, ih]; rfl

/-- C2 — counterexample: one projectile whose mask intersects two enemies
in the same pass destroys and scores BOTH of them: the call returns score 2
although only one (colliding) projectile exists, and no enemy is left for a
later pass. -/
theorem projectile_double_kill_cex :
    smDoubleHit.projectiles.length = 1
    ∧ collideProjEnemy projWide enemyA = true
    ∧ collideProjEnemy projWide enemyB = true
    ∧ (smDoubleHit.handle_projectiles_collisions img0 0).2 = 2
    ∧ (smDoubleHit.handle_projectiles_collisions img0 0).1.enemies = [] := by
  refine ⟨rfl, rfl, rfl, rfl, rfl⟩

/-- C2 (amended): in every single call to `handle_projectiles_collisions`
each ENEMY is consumed at most once: the score returned by the call equals
the number of enemies destroyed in the pass (a projectile that
mask-intersects several enemies destroys and scores all of them, so the
score may exceed the number of colliding projectiles). -/
theorem projectile_collisions_score_amended (s : SpriteManagerState)
    (img : Image) (now : Int) :
    ((s.handle_projectiles_collisions img now).1.enemies.length : Int)
        + (s.handle_projectiles_collisions img now).2
      = (s.enemies.length : Int)
    ∧ (s.handle_projectiles_collisions img now).1.enemies.length
        ≤ s.enemies.length := by
  have hc := groupcollide_enemy_count collideProjEnemy s.projectiles s.enemies
  unfold SpriteManagerState.handle_projectiles_collisions
  simp only [foldl_create_explosion_enemies]
  refine ⟨?_, ?_⟩ <;> omega

/-- C3 — counterexample: with an empty player slot, `create_projectile` is
not a silent no-op: `player_group.sprite` is `None` and the `.rect` access
raises `AttributeError`. -/
theorem create_projectile_no_player_cex :
    smNoPlayer.create_projectile img0 =
      .error "AttributeError: NoneType object has no attribute rect" := rfl

/-- C3 (amended): when `create_projectile` is called while the registry's
player slot is empty, the call fails with an `AttributeError` (dereference
of `None`): the error propagates to the caller, so nothing is added to the
projectile pool and no sound is played. -/
theorem create_projectile_no_player_fails (s : SpriteManagerState)
    (img : Image) (h : s.player_group = none) :
    s.create_projectile img =
      .error "AttributeError: NoneType object has no attribute rect" := by
  unfold SpriteManagerState.create_projectile
  rw [h]

/-- Closed instantiation of `create_projectile_no_player_fails` at a
concrete registry without a player. -/
theorem create_projectile_no_player_fails_witness :
    smNoPlayer.player_group = none
    ∧ smNoPlayer.create_projectile img0 =
        .error "AttributeError: NoneType object has no attribute rect" :=
  ⟨rfl, create_projectile_no_player_fails smNoPlayer img0 rfl⟩

/-- C4 — the code contradicts its own docstring at the cooldown boundary:
`MainScene.shoot` documents ">= 100 ms elapsed since the last shot", and
the spec states the same, but the code tests `current_time - last_shot_time
> cooldown` strictly.  At exactly 100 ms elapsed with ample energy the shot
is rejected: the scene is returned unchanged — no projectile, no energy
deduction, timestamp kept. -/
theorem shoot_exact_cooldown_rejected :
    MainScene.init resources0 0 = some scene0
    ∧ scene0.last_shot_time = 0
    ∧ scene0.params.player_cooldown = 100
    ∧ scene0.sprites.player_group.map Player.energy = some 600
    ∧ scene0.params.shoot_cost = 30
    ∧ scene0.shoot img0 100 = .ok scene0 :=
  ⟨rfl, rfl, rfl, rfl, rfl, rfl⟩

/-! ## C5: energy invariant -/

/-- The player after a successful shot of `scene0` at time 101
(energy 600 − 30 = 570). -/
def playerShot : Player := { player0 with energy := 570 }

/-- The Play scene after `scene0.shoot` at time 101. -/
def sceneShot : MainScene :=
  { score := 0
    last_shot_time := 101
    sprites := { params := paramsEasy
                 player_group := some playerShot
                 enemies := []
                 projectiles := [Projectile.init img0 player0.rect.midtop paramsEasy]
                 explosions := []
                 sounds_played := ["ost", "shot"] } }

/-- C5: the per-tick Player update regenerates energy by exactly +1 capped
at `max_energy` and keeps `0 ≤ energy ≤ max_energy`; a shot (the only other
operation that touches energy) also preserves the invariant, since it
deducts `shoot_cost` only when `energy ≥ shoot_cost` and
`shoot_cost ≥ 0`. -/
theorem energy_invariant :
    (∀ p : Player,
      p.update.energy = min p.max_energy (p.energy + 1)
      ∧ (0 ≤ p.energy → p.energy ≤ p.max_energy →
          0 ≤ p.update.energy ∧ p.update.energy ≤ p.max_energy))
    ∧ (∀ (sc : MainScene) (img : Image) (t : Int) (sc' : MainScene)
        (pl pl' : Player),
        sc.sprites.player_group = some pl →
        sc.shoot img t = .ok sc' →
        sc'.sprites.player_group = some pl' →
        0 ≤ pl.energy → pl.energy ≤ pl.max_energy →
        0 ≤ sc.params.shoot_cost →
        0 ≤ pl'.energy ∧ pl'.energy ≤ pl'.max_energy
          ∧ pl'.max_energy = pl.max_energy) := by
  constructor
  · intro p
    refine ⟨rfl, fun h0 h1 => ?_⟩
    unfold Player.update
    dsimp only
    omega
  · intro sc img t sc' pl pl' hpl hshoot hpl' he0 he1 hcost
    unfold MainScene.shoot at hshoot
    split at hshoot
    · exact absurd hshoot (by simp)
    · rename_i player heq
      rw [hpl] at heq
      injection heq with heq
      subst heq
      split at hshoot
      · rename_i hcan
        split at hshoot
        · exact absurd hshoot (by simp)
        · simp only [Except.ok.injEq] at hshoot
          rw [← hshoot] at hpl'
          dsimp only at hpl'
          injection hpl' with hpl'
          rw [← hpl']
          dsimp only
          obtain ⟨hc1, hc2⟩ := hcan
          refine ⟨by omega, by omega, rfl⟩
      · simp only [Except.ok.injEq] at hshoot
        rw [← hshoot] at hpl'
        rw [hpl] at hpl'
        injection hpl' with hpl'
        rw [← hpl']
        exact ⟨he0, he1, rfl⟩

/-- Closed instantiation of `energy_invariant`: the concrete player keeps
`0 ≤ energy ≤ max_energy` across a tick update, and so does the player
right after the successful shot `scene0.shoot img0 101 = sceneShot`. -/
theorem energy_invariant_witness :
    (0 ≤ (Player.update player0).energy
      ∧ (Player.update player0).energy ≤ player0.max_energy)
    ∧ (0 ≤ playerShot.energy ∧ playerShot.energy ≤ playerShot.max_energy) := by
  constructor
  · exact (energy_invariant.1 player0).2 (by decide) (by decide)
  · have h := energy_invariant.2 scene0 img0 101 sceneShot player0 playerShot
      rfl rfl rfl (by decide) (by decide) (by decide)
    exact ⟨h.1, h.2.1⟩

/-! ## C6: movement clamping -/

/-- The player's bounding rectangle lies within
`[0, screen_width] × [0, screen_height]`. -/
def Player.inScreen (p : Player) : Prop :=
  0 ≤ p.rect.left ∧ p.rect.right ≤ p.screen_width
    ∧ 0 ≤ p.rect.top ∧ p.rect.bottom ≤ p.screen_height

instance (p : Player) : Decidable (Player.inScreen p) := by
  unfold Player.inScreen
  infer_instance

/-- The distance between the player's rectangle and the screen edge it
would move toward. -/
def Player.edgeDist (p : Player) (direction : String) : Int :=
  if direction = "up" then p.rect.top
  else if direction = "down" then p.screen_height - p.rect.bottom
  else if direction = "left" then p.rect.left
  else p.screen_width - p.rect.right

/-- The player shifted by exactly `velocity` along the axis of the given
direction. -/
def Player.shifted (p : Player) (direction : String) : Player :=
  if direction = "up" then { p with rect := { p.rect with y := p.rect.y - p.velocity } }
  else if direction = "down" then { p with rect := { p.rect with y := p.rect.y + p.velocity } }
  else if direction = "left" then { p with rect := { p.rect with x := p.rect.x - p.velocity } }
  else { p with rect := { p.rect with x := p.rect.x + p.velocity } }

/-- C6: for every valid move command applied to a player whose rectangle
lies within the screen (with non-negative velocity, as in every preset),
the move shifts the rectangle by exactly `velocity` along one axis when the
distance to the corresponding screen edge exceeds `velocity`, and otherwise
leaves the player unchanged; either way the resulting rectangle stays
within `[0, screen_width] × [0, screen_height]`. -/
theorem player_move_clamped (p : Player) (d : String)
    (hd : d ∈ (["up", "down", "left", "right"] : List String))
    (hin : p.inScreen) (hv : 0 ≤ p.velocity) :
    p.move d = .ok (if p.velocity < p.edgeDist d then p.shifted d else p)
    ∧ Player.inScreen (if p.velocity < p.edgeDist d then p.shifted d else p) := by
  obtain ⟨h1, h2, h3, h4⟩ := hin
  unfold Rect.left Rect.right Rect.top Rect.bottom at *
  fin_cases hd <;>
    simp only [Player.move, Player.edgeDist, Player.shifted, Player.inScreen,
      Rect.left, Rect.right, Rect.top, Rect.bottom, List.mem_cons,
      List.not_mem_nil, String.reduceEq, or_false, or_true, true_or,
      not_true_eq_false, false_and, true_and, if_false, if_true,
      reduceCtorEq, false_or] <;>
    split_ifs <;>
    simp_all <;>
    (try constructor) <;>
    omega

/-- Closed instantiation of `player_move_clamped`: the freshly created
player moves up by its velocity and stays in the screen. -/
theorem player_move_clamped_witness :
    Player.move player0 "up" = .ok
      (if player0.velocity < Player.edgeDist player0 "up" then
        Player.shifted player0 "up" else player0)
    ∧ Player.inScreen
      (if player0.velocity < Player.edgeDist player0 "up" then
        Player.shifted player0 "up" else player0) :=
  player_move_clamped player0 "up" (by decide) (by decide) (by decide)

/-! ## C7: enemy breach -/

/-- An enemy whose bottom edge has already reached the bottom border. -/
def enemyBreach : Enemy :=
  { rect := { x := 0, y := 599, w := 2, h := 2 }, mask := [(0, 0)]
    velocity := 1, screen_width := 800, screen_height := 600 }

lemma enemy_events_count (es : List Enemy) :
    (((es.map Enemy.update).map Prod.snd).flatten).length
      = (es.filter fun en => decide (en.screen_height ≤ en.rect.bottom)).length := by
  induction es with
  | nil => rfl
  | cons e es ih =>
    by_cases hb : e.rect.bottom < e.screen_height
    · have h1 : Enemy.update e =
          (some { e with rect := { e.rect with y := e.rect.y + e.velocity } }, []) := by
        unfold Enemy.update; rw [if_pos hb]
      have h2 : (decide (e.screen_height ≤ e.rect.bottom)) = false :=
        decide_eq_false (not_le.mpr hb)
      simp only [List.map_cons, h1, List.flatten_cons, List.length_append,
        List.filter_cons, h2, Bool.false_eq_true, if_false, List.length_nil]
      omega
    · have ht : e.screen_height ≤ e.rect.bottom := not_lt.mp hb
      have h1 : Enemy.update e = (none, [GameEvent.enemy_breach]) := by
        unfold Enemy.update; rw [if_neg hb]
      have h2 : (decide (e.screen_height ≤ e.rect.bottom)) = true := decide_eq_true ht
      simp only [List.map_cons, h1, List.flatten_cons, List.length_append,
        List.filter_cons, h2, if_true, List.length_cons, List.length_singleton,
        List.length_nil, Nat.zero_add]
      omega

lemma enemy_survivors_count (es : List Enemy) :
    ((es.map Enemy.update).filterMap Prod.fst).length
      = (es.filter fun en => decide (en.rect.bottom < en.screen_height)).length := by
  induction es with
  | nil => rfl
  | cons e es ih =>
    by_cases hb : e.rect.bottom < e.screen_height
    · have h1 : Enemy.update e =
          (some { e with rect := { e.rect with y := e.rect.y + e.velocity } }, []) := by
        unfold Enemy.update; rw [if_pos hb]
      have h2 : (decide (e.rect.bottom < e.screen_height)) = true := decide_eq_true hb
      simp only [List.map_cons, h1, List.filterMap_cons, List.filter_cons, h2,
        if_true, List.length_cons]
      omega
    · have h1 : Enemy.update e = (none, [GameEvent.enemy_breach]) := by
        unfold Enemy.update; rw [if_neg hb]
      have h2 : (decide (e.rect.bottom < e.screen_height)) = false := decide_eq_false hb
      simp only [List.map_cons, h1, List.filterMap_cons, List.filter_cons, h2,
        Bool.false_eq_true, if_false]
      omega

/-- C7: the per-tick enemy update moves the enemy down by exactly
`velocity` while its bottom edge is above `screen_height`; on the tick
where `bottom ≥ screen_height` it is killed and exactly one breach event is
posted.  At the registry level, one update tick removes exactly the
breaching enemies from the pool and posts exactly one event per breaching
enemy. -/
theorem enemy_update_breach (e : Enemy) :
    (e.rect.bottom < e.screen_height →
      e.update = (some { e with rect := { e.rect with y := e.rect.y + e.velocity } }, []))
    ∧ (e.screen_height ≤ e.rect.bottom →
      e.update = (none, [GameEvent.enemy_breach]) ∧ e.update.2.length = 1)
    ∧ (∀ (s : SpriteManagerState) (now : Int),
        ((s.update now).2).length
          = (s.enemies.filter fun en =>
              decide (en.screen_height ≤ en.rect.bottom)).length
        ∧ (s.update now).1.enemies.length
          = (s.enemies.filter fun en =>
              decide (en.rect.bottom < en.screen_height)).length) := by
  refine ⟨?_, ?_, ?_⟩
  · intro h
    unfold Enemy.update
    rw [if_pos h]
  · intro h
    have hne : ¬ e.rect.bottom < e.screen_height := not_lt.mpr h
    constructor
    · unfold Enemy.update; rw [if_neg hne]
    · unfold Enemy.update; rw [if_neg hne]; rfl
  · intro s now
    exact ⟨enemy_events_count s.enemies, enemy_survivors_count s.enemies⟩

/-- Closed instantiation of `enemy_update_breach`: a high enemy moves down
by its velocity with no event; an enemy at the bottom dies with exactly one
breach event. -/
theorem enemy_update_breach_witness :
    Enemy.update enemyA =
      (some { enemyA with rect := { enemyA.rect with
        y := enemyA.rect.y + enemyA.velocity } }, [])
    ∧ Enemy.update enemyBreach = (none, [GameEvent.enemy_breach])
    ∧ (Enemy.update enemyBreach).2.length = 1 :=
  ⟨(enemy_update_breach enemyA).1 (by decide),
   ((enemy_update_breach enemyBreach).2.1 (by decide)).1,
   ((enemy_update_breach enemyBreach).2.1 (by decide)).2⟩

/-! ## C9: projectile stays below the top edge -/

/-- A projectile far from the top edge. -/
def projHigh : Projectile :=
  { rect := { x := 0, y := 100, w := 2, h := 2 }, mask := [(0, 0)]
    velocity := 5 }

/-- C9: the per-tick projectile update kills the projectile (with no event
posted — its result type carries no events) whenever `y ≤ velocity`, and
otherwise moves it up by exactly `velocity`; consequently every projectile
that survives an update has `y > 0`. -/
theorem projectile_update_top (p : Projectile) :
    (p.rect.y ≤ p.velocity → p.update = none)
    ∧ (p.velocity < p.rect.y →
        p.update = some { p with rect := { p.rect with y := p.rect.y - p.velocity } })
    ∧ (∀ q : Projectile, p.update = some q → 0 < q.rect.y) := by
  refine ⟨?_, ?_, ?_⟩
  · intro h
    unfold Projectile.update
    rw [if_neg (by omega)]
  · intro h
    unfold Projectile.update
    rw [if_pos (by omega)]
  · intro q hq
    unfold Projectile.update at hq
    split at hq
    · rename_i hgt
      injection hq with hq
      rw [← hq]
      dsimp only
      omega
    · exact absurd hq (by simp)

/-- Closed instantiation of `projectile_update_top`: a projectile at the
top edge dies; a high projectile moves up by its velocity and its new `y`
is positive. -/
theorem projectile_update_top_witness :
    Projectile.update projWide = none
    ∧ Projectile.update projHigh =
        some { projHigh with rect := { projHigh.rect with
          y := projHigh.rect.y - projHigh.velocity } }
    ∧ 0 < ({ projHigh with rect := { projHigh.rect with
          y := projHigh.rect.y - projHigh.velocity } } : Projectile).rect.y :=
  ⟨(projectile_update_top projWide).1 (by decide),
   (projectile_update_top projHigh).2.1 (by decide),
   (projectile_update_top projHigh).2.2 _
     ((projectile_update_top projHigh).2.1 (by decide))⟩

/-! ## C10: death signal is not latched -/

/-- A Play scene down to its last life. -/
def sceneLowLives : MainScene :=
  { score := 0
    last_shot_time := 0
    sprites := { params := { paramsEasy with player_lives := 1 }
                 player_group := some player0
                 enemies := [], projectiles := [], explosions := []
                 sounds_played := [] } }

/-- C10: every call to `damage_player` whose resulting lives value is `≤ 0`
posts one `EVENT_PLAYER_DEAD` and spawns one player explosion — the signal
is re-posted on every such call, also when lives were already `≤ 0`; a call
leaving lives positive posts no event and spawns nothing. -/
theorem damage_player_death_events (sc : MainScene) (img : Image)
    (amount now : Int) (pl : Player)
    (hpl : sc.sprites.player_group = some pl) :
    ∃ res : MainScene × List GameEvent,
      sc.damage_player img amount now = .ok res
      ∧ res.1.params.player_lives = sc.params.player_lives - amount
      ∧ (res.1.params.player_lives ≤ 0 →
          res.2 = [GameEvent.player_dead]
          ∧ res.1.sprites.explosions.length = sc.sprites.explosions.length + 1
          ∧ res.1.sprites.sounds_played
              = sc.sprites.sounds_played ++ ["explosion"])
      ∧ (0 < res.1.params.player_lives →
          res.2 = [] ∧ res.1.sprites.explosions = sc.sprites.explosions) := by
  unfold MainScene.damage_player
  dsimp only
  by_cases hl : sc.params.player_lives - amount ≤ 0
  · rw [if_pos hl, hpl]
    refine ⟨_, rfl, rfl, fun _ => ⟨rfl, ?_, rfl⟩,
      fun hpos => absurd hl (not_le.mpr hpos)⟩
    simp [SpriteManagerState.create_explosion]
  · rw [if_neg hl]
    exact ⟨_, rfl, rfl, fun hneg => absurd hneg hl, fun _ => ⟨rfl, rfl⟩⟩

/-- Closed instantiation of `damage_player_death_events`: one point of
damage on a one-life scene posts the death event; the same damage on the
five-life scene posts nothing. -/
theorem damage_player_death_events_witness :
    (sceneLowLives.damage_player img0 1 0).map (fun r => r.2)
        = .ok [GameEvent.player_dead]
    ∧ (scene0.damage_player img0 1 0).map (fun r => r.2) = .ok [] := by
  obtain ⟨res, hres, hl, hdead, halive⟩ :=
    damage_player_death_events sceneLowLives img0 1 0 player0 rfl
  obtain ⟨res2, hres2, hl2, hdead2, halive2⟩ :=
    damage_player_death_events scene0 img0 1 0 player0 rfl
  have h1 := hdead (by rw [hl]; decide)
  have h2 := halive2 (by rw [hl2]; decide)
  constructor
  · rw [hres]
    show Except.ok res.2 = _
    rw [h1.1]
  · rw [hres2]
    show Except.ok res2.2 = _
    rw [h2.1]

/-! ## C8: menu navigation -/

lemma press_invariant (sc : MenuScene) (k : MenuKey)
    (h0 : 0 ≤ sc.menu.index) (h2 : sc.menu.index ≤ 2) :
    (sc.press k).index = (sc.press k).menu.index
      ∧ 0 ≤ (sc.press k).menu.index ∧ (sc.press k).menu.index ≤ 2 := by
  cases k <;>
    simp only [MenuScene.press, Menu.switch] <;>
    split_ifs <;>
    simp_all <;>
    omega

/-- C8: the Menu scene starts with selection index 1; any sequence of
Left/Right navigation inputs keeps the index in `[0, 2]` (clamped, no
wraparound); from the default state, Left yields 0, then Right twice yields
1 then 2, and a third Right leaves the index at 2. -/
theorem menu_navigation :
    MenuScene.init.index = 1
    ∧ (∀ (sc : MenuScene) (keys : List MenuKey),
        sc.index = sc.menu.index → 0 ≤ sc.index → sc.index ≤ 2 →
        0 ≤ (sc.pressAll keys).index ∧ (sc.pressAll keys).index ≤ 2)
    ∧ (MenuScene.init.press .left).index = 0
    ∧ ((MenuScene.init.press .left).press .right).index = 1
    ∧ (((MenuScene.init.press .left).press .right).press .right).index = 2
    ∧ ((((MenuScene.init.press .left).press .right).press .right).press
        .right).index = 2 := by
  refine ⟨rfl, ?_, by decide, by decide, by decide, by decide⟩
  intro sc keys hi h0 h2
  rw [hi] at h0 h2
  suffices h : (sc.pressAll keys).index = (sc.pressAll keys).menu.index
      ∧ 0 ≤ (sc.pressAll keys).menu.index ∧ (sc.pressAll keys).menu.index ≤ 2 by
    obtain ⟨ha, hb, hc⟩ := h
    rw [ha]
    exact ⟨hb, hc⟩
  unfold MenuScene.pressAll
  induction keys generalizing sc with
  | nil => exact ⟨hi, h0, h2⟩
  | cons k keys ih =>
    rw [List.foldl_cons]
    obtain ⟨ha, hb, hc⟩ := press_invariant sc k h0 h2
    exact ih (sc.press k) ha hb hc

/-- Closed instantiation of `menu_navigation`: from the default state the
four-keypress sequence Left, Right, Right, Right keeps the index within
`[0, 2]`. -/
theorem menu_navigation_witness :
    0 ≤ (MenuScene.init.pressAll
        [MenuKey.left, MenuKey.right, MenuKey.right, MenuKey.right]).index
    ∧ (MenuScene.init.pressAll
        [MenuKey.left, MenuKey.right, MenuKey.right, MenuKey.right]).index ≤ 2 :=
  menu_navigation.2.1 MenuScene.init
    [MenuKey.left, MenuKey.right, MenuKey.right, MenuKey.right]
    rfl (by decide) (by decide)

end Invaders
